import Mathlib

/-!
Verification of the durable job-orchestration core of the forge-engine
repository: a shallow embedding of the persistent job store
(`core/jobs.py`), the supervisor (`services/monitor.py`), the step cache
of the analysis handler (`services/analysis.py`) and the cancel HTTP
endpoint (`api/v1/endpoints/jobs.py`), together with theorems settling
the specification claims about them.

Conventions of the embedding:
- wall-clock timestamps are natural numbers (seconds); `datetime.utcnow()`
  / `datetime.now()` become an explicit `now : Nat` argument;
- JSON-shaped blobs (the `result` column, project metadata, step-cache
  files) are values of the inductive `Json` below;
- SQL `UPDATE ... WHERE id = x` becomes a map over the row list touching
  every row whose id equals `x` (ids are primary keys, hence unique);
- progress is an integer: every progress value the embedded control flow
  compares or stores is integral in the source.
-/

/-- JSON-shaped values, as stored in the `result` column of a job row,
in `Project.project_meta` and in the step-cache files.  Arrays do not
occur in any code path a claim depends on and are omitted. -/
inductive Json where
  | null : Json
  | bool (b : Bool) : Json
  | num (n : Int) : Json
  | str (s : String) : Json
  | obj (fields : List (String × Json)) : Json
deriving Repr

/-- Key membership in a JSON object's field list (Python `"k" in data`). -/
def hasField (fields : List (String × Json)) (key : String) : Bool :=
  fields.any (fun kv => kv.1 == key)

/-- Field lookup in a JSON object's field list (Python `data.get(k)`). -/
def findField (fields : List (String × Json)) (key : String) : Option Json :=
  (fields.find? (fun kv => kv.1 == key)).map Prod.snd

/-- One row of the `jobs` table (`models/job.py`, class `JobRecord`).
`type'` embeds the `type` column (`type` is reserved in Lean). -/
structure JobRecord where
  id : String
  type' : String
  project_id : Option String
  status : String
  progress : Int
  stage : Option String
  message : Option String
  error : Option String
  result : Option Json
  created_at : Nat
  started_at : Option Nat
  completed_at : Option Nat
deriving Repr

/-- The slice of a `Project` row the core reads and writes
(`models/project.py`): its id, lifecycle `status` string, and the
`project_meta` JSON blob. -/
structure Project where
  id : String
  status : String
  project_meta : Option Json
deriving Repr

/-- The relational store: the `jobs` and `projects` tables. -/
structure Store where
  jobs : List JobRecord
  projects : List Project
deriving Repr

/-- JobManager.start, lines 113-121 of `core/jobs.py`: the startup
recovery write `UPDATE jobs SET status='pending' WHERE status='running'`.
Only the status column is written. -/
def start_reset_running (s : Store) : Store :=
  { s with jobs := s.jobs.map (fun r =>
      if r.status == "running" then { r with status := "pending" } else r) }

/-- The claim-next eligibility filter of `JobManager._worker`
(lines 151-160): status `pending` and `created_at > now - 24h`. -/
def jobEligible (now : Nat) (r : JobRecord) : Bool :=
  r.status == "pending" && decide (now - 86400 < r.created_at)

/-- `ORDER BY created_at LIMIT 1`: the first row holding the minimal
`created_at` of the list. -/
def pickOldest : List JobRecord → Option JobRecord
  | [] => none
  | r :: rs =>
    match pickOldest rs with
    | none => some r
    | some b => if r.created_at ≤ b.created_at then some r else some b

/-- The claim step of `JobManager._worker` (lines 149-175): select the
oldest pending job created within the last 24 hours; if one exists, set
its row to status `running` with `started_at = now`.  Returns the
selected row as read (before the lock write) and the updated store. -/
def claimNext (s : Store) (now : Nat) : Option JobRecord × Store :=
  match pickOldest (s.jobs.filter (jobEligible now)) with
  | none => (none, s)
  | some r =>
    (some r,
     { s with jobs := s.jobs.map (fun x =>
         if x.id == r.id then { x with status := "running", started_at := some now } else x) })

/-- `JobManager._update_db_progress` (lines 390-404): writes progress,
stage and message on the row with the given id.  The `WHERE` clause
filters on the id only — there is no status guard. -/
def update_db_progress (s : Store) (job_id : String) (progress : Int)
    (stage message : String) : Store :=
  { s with jobs := s.jobs.map (fun r =>
      if r.id == job_id then
        { r with progress := progress, stage := some stage, message := some message }
      else r) }

/-- `JobManager.cancel_job` (lines 406-414): unconditionally writes
status `cancelled` and `completed_at = now` on the row with the given
id, and returns `True` whether or not such a row exists. -/
def cancel_job (s : Store) (job_id : String) (now : Nat) : Store × Bool :=
  ({ s with jobs := s.jobs.map (fun r =>
      if r.id == job_id then
        { r with status := "cancelled", completed_at := some now }
      else r) },
   true)

/-- The success write of `JobManager._execute_job` (lines 218-229):
status `completed`, progress 100, `result = handler return or {}`,
`completed_at = now`. -/
def finish_completed (s : Store) (job_id : String) (res : Option Json) (now : Nat) : Store :=
  { s with jobs := s.jobs.map (fun r =>
      if r.id == job_id then
        { r with status := "completed", progress := 100,
                 result := some (res.getD (Json.obj [])), completed_at := some now }
      else r) }

/-- The failure write of `JobManager._execute_job` (lines 236-246):
status `failed`, `error = str(e)`, `completed_at = now`.  The result and
progress columns are not touched. -/
def finish_failed (s : Store) (job_id : String) (msg : String) (now : Nat) : Store :=
  { s with jobs := s.jobs.map (fun r =>
      if r.id == job_id then
        { r with status := "failed", error := some msg, completed_at := some now }
      else r) }

/-- `JobManager.create_job` (lines 250-283): inserts a row in status
`pending` with the keyword-argument map stored in the `result` column
("Store args in result column for now (hack)") and `created_at = now`.
The remaining columns take the `JobRecord` model defaults. -/
def create_job (s : Store) (newId : String) (job_type : String)
    (project_id : Option String) (payload : Json) (now : Nat) : Store :=
  { s with jobs := s.jobs ++
      [{ id := newId, type' := job_type, project_id := project_id,
         status := "pending", progress := 0, stage := none, message := none,
         error := none, result := some payload, created_at := now,
         started_at := none, completed_at := none }] }

/-- The outcome of running a registered handler coroutine: a returned
result map, or a raised exception with its stringified message. -/
inductive HandlerOutcome where
  | ok (res : Option Json) : HandlerOutcome
  | err (msg : String) : HandlerOutcome

/-- The handler registry `JobManager._handlers`: job-type string to the
behaviour of the registered handler. -/
abbrev Registry := List (String × HandlerOutcome)

/-- `self._handlers.get(job_type)`. -/
def lookupHandler (reg : Registry) (t : String) : Option HandlerOutcome :=
  (reg.find? (fun p => p.1 == t)).map Prod.snd

/-- `JobManager._execute_job` (lines 200-247) for a job whose handler was
found: run it and record the terminal outcome. -/
def execute_job (s : Store) (job_id : String) (h : HandlerOutcome) (now : Nat) : Store :=
  match h with
  | .ok res => finish_completed s job_id res now
  | .err msg => finish_failed s job_id msg now

/-- One pass of the worker loop `JobManager._worker` (lines 143-198):
claim the next job; if none was claimed, sleep.  If a job was claimed,
look its handler up; `if job_id and handler:` executes the job, and the
`else` branch merely sleeps — a claimed job whose type has no registered
handler is left in status `running`, untouched. -/
def workerStep (reg : Registry) (s : Store) (now : Nat) : Store :=
  match claimNext s now with
  | (none, s') => s'
  | (some r, s') =>
    match lookupHandler reg r.type' with
    | none => s'
    | some h => execute_job s' r.id h now

/-- The per-job in-memory health sample (`MonitorService.JobHealth`,
`services/monitor.py` lines 100-122). -/
structure JobHealth where
  job_id : String
  job_type : String
  status : String
  progress : Int
  started_at : Option Nat
  last_update : Nat
  is_stuck : Bool
  stuck_duration : Nat
deriving Repr

/-- The in-memory state of `MonitorService`: the `_jobs_health` dict and
the `_last_job_progress` dict (progress, wall-clock time). -/
structure MonitorState where
  jobs_health : List (String × JobHealth)
  last_job_progress : List (String × Int × Nat)
deriving Repr

/-- Dict lookup on an association list. -/
def lookupA {α : Type} (l : List (String × α)) (k : String) : Option α :=
  (l.find? (fun kv => kv.1 == k)).map Prod.snd

/-- Dict assignment `d[k] = v`: replace the binding if the key is
present, append it otherwise. -/
def setA {α : Type} (l : List (String × α)) (k : String) (v : α) : List (String × α) :=
  if l.any (fun kv => kv.1 == k) then
    l.map (fun kv => if kv.1 == k then (k, v) else kv)
  else l ++ [(k, v)]

/-- Dict deletion `del d[k]`. -/
def delA {α : Type} (l : List (String × α)) (k : String) : List (String × α) :=
  l.filter (fun kv => kv.1 != k)

/-- `MonitorService.JOB_STUCK_THRESHOLD_SECONDS` (line 131). -/
def JOB_STUCK_THRESHOLD_SECONDS : Nat := 180

/-- `MonitorService.AUTO_RETRY_MAX` (line 136). -/
def AUTO_RETRY_MAX : Int := 3

/-- `MonitorService.update_job_health` (lines 340-369).  With a prior
sample of equal progress while status is `"running"`, the sample is kept
and the health record carries the elapsed duration, stuck when it
exceeds the threshold; otherwise the sample is re-seeded at `now` and
the record is not stuck. -/
def update_job_health (ms : MonitorState) (job_id job_type status : String)
    (progress : Int) (started_at : Option Nat) (now : Nat) : MonitorState :=
  match lookupA ms.last_job_progress job_id with
  | some (last_progress, last_time) =>
    if progress == last_progress && status == "running" then
      let d := now - last_time
      let jh : JobHealth :=
        ⟨job_id, job_type, status, progress, started_at, now,
         decide (d > JOB_STUCK_THRESHOLD_SECONDS), d⟩
      { ms with jobs_health := setA ms.jobs_health job_id jh }
    else
      let jh : JobHealth :=
        ⟨job_id, job_type, status, progress, started_at, now, false, 0⟩
      { jobs_health := setA ms.jobs_health job_id jh,
        last_job_progress := setA ms.last_job_progress job_id (progress, now) }
  | none =>
    let jh : JobHealth :=
      ⟨job_id, job_type, status, progress, started_at, now, false, 0⟩
    { jobs_health := setA ms.jobs_health job_id jh,
      last_job_progress := setA ms.last_job_progress job_id (progress, now) }

/-- `MonitorService.get_stuck_jobs` (lines 375-377). -/
def get_stuck_jobs (ms : MonitorState) : List JobHealth :=
  (ms.jobs_health.map Prod.snd).filter (fun j => j.is_stuck)

/-- The project-status rollback applied by stuck-job recovery
(lines 417-424): keys on the job type; any other type leaves the
status unchanged. -/
def stuckResetStatus (job_type old : String) : String :=
  if job_type == "ingest" then "created"
  else if job_type == "analyze" then "ingested"
  else if job_type == "export" then "analyzed"
  else old

/-- One iteration of the recovery loop of
`MonitorService.recover_stuck_jobs` (lines 390-435) for the stuck
health record `jh`: skip when no job row carries its id; otherwise set
that row to status `failed` with the auto-recovery error (progress,
result and `completed_at` are not written), roll back the associated
project's status by job type, and drop both in-memory samples. -/
def recoverOne (acc : MonitorState × Store × Nat) (jh : JobHealth) :
    MonitorState × Store × Nat :=
  let (ms, s, n) := acc
  match s.jobs.find? (fun r => r.id == jh.job_id) with
  | none => (ms, s, n)
  | some jrec =>
    let jobs' := s.jobs.map (fun r =>
      if r.id == jh.job_id then
        { r with status := "failed",
                 error := some ("Auto-recovered: stuck for " ++ toString jh.stuck_duration ++ "s") }
      else r)
    let projects' :=
      match jrec.project_id with
      | none => s.projects
      | some pid =>
        if (s.projects.find? (fun p => p.id == pid)).isSome then
          s.projects.map (fun p =>
            if p.id == pid then { p with status := stuckResetStatus jh.job_type p.status } else p)
        else s.projects
    ({ jobs_health := delA ms.jobs_health jh.job_id,
       last_job_progress := delA ms.last_job_progress jh.job_id },
     { jobs := jobs', projects := projects' }, n + 1)

/-- `MonitorService.recover_stuck_jobs` (lines 379-442): fold the
recovery step over the snapshot of stuck health records. -/
def recover_stuck_jobs (ms : MonitorState) (s : Store) : MonitorState × Store × Nat :=
  (get_stuck_jobs ms).foldl recoverOne (ms, s, 0)

/-- The transient lifecycle states scanned by
`MonitorService.recover_stuck_projects` (line 452). -/
def isTransient (st : String) : Bool :=
  st == "ingesting" || st == "analyzing" || st == "downloading" || st == "exporting"

/-- The orphan rollback mapping of `recover_stuck_projects`
(lines 478-483). -/
def orphanResetStatus (st : String) : String :=
  if st == "ingesting" || st == "downloading" then "created"
  else if st == "analyzing" then "ingested"
  else if st == "exporting" then "analyzed"
  else st

/-- The live-job check of `recover_stuck_projects` (lines 464-472): any
job of the project in status `pending` or `running`, of any type.  (With
two or more such rows `scalar_one_or_none` raises and the except-branch
skips the project, which equally leaves it unchanged.) -/
def hasLiveJob (s : Store) (pid : String) : Bool :=
  s.jobs.any (fun j =>
    j.project_id == some pid && (j.status == "pending" || j.status == "running"))

/-- `MonitorService.recover_stuck_projects` (lines 444-494): every
project in a transient state with no live job of any kind is rolled back
to the predecessor stage; the count of rollbacks is returned. -/
def recover_stuck_projects (s : Store) : Store × Nat :=
  ({ s with projects := s.projects.map (fun p =>
       if isTransient p.status && !hasLiveJob s p.id then
         { p with status := orphanResetStatus p.status }
       else p) },
   (s.projects.filter (fun p => isTransient p.status && !hasLiveJob s p.id)).length)

/-- The recent-failure filter of `MonitorService.auto_restart_failed_jobs`
(lines 507-517): status `failed` and `completed_at > now - 10min`.
A null `completed_at` compares false in SQL and is excluded. -/
def failedRecently (now : Nat) (r : JobRecord) : Bool :=
  r.status == "failed" &&
    (match r.completed_at with
     | some t => decide (now - 600 < t)
     | none => false)

/-- Descending insertion by `completed_at` (the `ORDER BY completed_at
DESC` of the failed-job query). -/
def insertDescByCompleted (r : JobRecord) : List JobRecord → List JobRecord
  | [] => [r]
  | x :: xs =>
    if x.completed_at.getD 0 < r.completed_at.getD 0 then r :: x :: xs
    else x :: insertDescByCompleted r xs

/-- Sort by `completed_at` descending. -/
def sortDescByCompleted (l : List JobRecord) : List JobRecord :=
  l.foldr insertDescByCompleted []

/-- The retry-count read of `auto_restart_failed_jobs` (lines 522-525):
`result.get("_retry_count", 0)` when the result column is a JSON object,
0 otherwise.  `none` stands for the `TypeError` a non-integer field value
raises at the comparison, which the except-branch turns into a skip. -/
def retryCountOf (res : Option Json) : Option Int :=
  match res with
  | some (Json.obj fields) =>
    match findField fields "_retry_count" with
    | some (Json.num n) => some n
    | some _ => none
    | none => some 0
  | _ => some 0

/-- The replacement-job check of `auto_restart_failed_jobs`
(lines 539-551): a job of the same project and type in status
`pending` or `running`, created after the failed job completed.  (Two
or more matches raise in `scalar_one_or_none` and equally skip.) -/
def hasReplacement (s : Store) (r : JobRecord) (pid : String) : Bool :=
  s.jobs.any (fun j =>
    j.project_id == some pid && j.type' == r.type' &&
      (j.status == "pending" || j.status == "running") &&
      (match r.completed_at with
       | some t => decide (t < j.created_at)
       | none => false))

/-- The keyword arguments `auto_restart_failed_jobs` passes to
`create_job` (lines 556-576): `auto_analyze=True, _retry_count=n+1` for
an ingest job, `_retry_count=n+1` for an analyze job. -/
def retryPayload (job_type : String) (n : Int) : Json :=
  if job_type == "ingest" then
    Json.obj [("auto_analyze", Json.bool true), ("_retry_count", Json.num (n + 1))]
  else
    Json.obj [("_retry_count", Json.num (n + 1))]

/-- `project.status = st` committed by the restart branch. -/
def setProjectStatus (s : Store) (pid : String) (st : String) : Store :=
  { s with projects := s.projects.map (fun p =>
      if p.id == pid then { p with status := st } else p) }

/-- One iteration of `auto_restart_failed_jobs` (lines 520-585) over the
failed job `r`.  The accumulator carries the store, the restarted
counter, and an index used for fresh job ids.  Skips on: unreadable
retry count, retry count at the maximum, missing project, existing
replacement.  For type `ingest` or `analyze` a successor is created with
the fixed retry payload and the project is set to the matching transient
status; for any other type nothing is created yet the counter is still
incremented. -/
def restartOne (now : Nat) (acc : Store × Nat × Nat) (r : JobRecord) :
    Store × Nat × Nat :=
  let (s, cnt, idx) := acc
  match retryCountOf r.result with
  | none => (s, cnt, idx)
  | some n =>
    if AUTO_RETRY_MAX ≤ n then (s, cnt, idx)
    else
      match r.project_id.bind (fun pid => s.projects.find? (fun p => p.id == pid)) with
      | none => (s, cnt, idx)
      | some p =>
        if hasReplacement s r p.id then (s, cnt, idx)
        else if r.type' == "ingest" then
          (setProjectStatus
             (create_job s ("retry-" ++ toString idx) "ingest" (some p.id)
               (retryPayload "ingest" n) now)
             p.id "ingesting",
           cnt + 1, idx + 1)
        else if r.type' == "analyze" then
          (setProjectStatus
             (create_job s ("retry-" ++ toString idx) "analyze" (some p.id)
               (retryPayload "analyze" n) now)
             p.id "analyzing",
           cnt + 1, idx + 1)
        else (s, cnt + 1, idx)

/-- `MonitorService.auto_restart_failed_jobs` (lines 496-587): fold the
restart step over the 10 most recently failed jobs of the last 10
minutes.  Returns the updated store and the restarted count. -/
def auto_restart_failed_jobs (s : Store) (now : Nat) : Store × Nat :=
  let batch := (sortDescByCompleted (s.jobs.filter (failedRecently now))).take 10
  let out := batch.foldl (restartOne now) (s, 0, 0)
  (out.1, out.2.1)

/-- A step-cache file as the analysis handler finds it on disk: absent,
present but not JSON-parseable, or parsed to a JSON value. -/
inductive FileState where
  | absent : FileState
  | unreadable : FileState
  | parsed (j : Json) : FileState

/-- `load_cached_step` of `AnalysisService.run_analysis`
(`services/analysis.py` lines 122-134): return the parsed blob when the
file exists, parses, and has no `"error"` field; `None` otherwise.  (All
step writers dump JSON objects; a non-object blob raises on the
membership test and falls to the except-branch, a miss.) -/
def load_cached_step (fs : FileState) : Option Json :=
  match fs with
  | .parsed (Json.obj fields) =>
    if hasField fields "error" then none else some (Json.obj fields)
  | _ => none

/-- What one cached sub-step of `run_analysis` does: whether the cached
blob was used, the progress value reported, and whether the expensive
sub-step was invoked. -/
structure StepRun where
  usedCache : Bool
  progressEmitted : Int
  invoked : Bool
deriving Repr

/-- The cache-or-run pattern of each sub-step of `run_analysis`
(lines 136-289): on a cache hit report the hit progress and skip the
sub-step; on a miss report the start progress and invoke it. -/
def runCachedStep (hitProgress missProgress : Int) (fs : FileState) : StepRun :=
  match load_cached_step fs with
  | some _ => ⟨true, hitProgress, false⟩
  | none => ⟨false, missProgress, true⟩

/-- The four cached sub-steps of `run_analysis` with their cache file
name, hit (completion-boundary) progress and miss (start) progress:
transcription (lines 137-144), audio analysis (lines 173-186), scene
detection (lines 217-230), layout detection (lines 263-269). -/
def analysisSteps : List (String × Int × Int) :=
  [("transcript.json", 35, 5),
   ("audio_analysis.json", 50, 40),
   ("scenes.json", 65, 55),
   ("layout.json", 80, 70)]

/-- Outcome of an HTTP endpoint: a JSON success response or an
`HTTPException` with a status code. -/
inductive ApiResult where
  | ok : ApiResult
  | httpError (code : Nat) : ApiResult
deriving Repr, DecidableEq

/-- The cancel endpoint (`api/v1/endpoints/jobs.py` lines 38-47): call
`JobManager.cancel_job` and raise 400 only when it returns false. -/
def cancel_endpoint (s : Store) (job_id : String) (now : Nat) : Store × ApiResult :=
  let out := cancel_job s job_id now
  (out.1, if out.2 then ApiResult.ok else ApiResult.httpError 400)

/-! ## Helper lemmas -/

/-- A row-wise update relates pointwise to the original list. -/
lemma forall2_map_self {α : Type} {R : α → α → Prop} {f : α → α} :
    ∀ l : List α, (∀ x ∈ l, R x (f x)) → List.Forall₂ R l (l.map f) := by
  intro l h
  induction l with
  | nil => exact List.Forall₂.nil
  | cons a t ih =>
    exact List.Forall₂.cons (h a (List.mem_cons_self a t))
      (ih (fun x hx => h x (List.mem_cons_of_mem a hx)))

/-- Looking a key up after deleting it yields nothing. -/
lemma lookupA_delA {α : Type} (l : List (String × α)) (k : String) :
    lookupA (delA l k) k = none := by
  induction l with
  | nil => rfl
  | cons kv t ih =>
    by_cases h : kv.1 = k
    · simpa [delA, h] using ih
    · simp only [delA, List.filter_cons] at *
      simp only [bne, h, beq_iff_eq, if_pos, decide_not]
      simp only [lookupA, List.find?] at *
      have : (kv.1 == k) = false := by simpa using h
      simp [this, ih]

/-- Overwriting an existing binding makes the key map to the new value. -/
lemma lookupA_map_overwrite {α : Type} (l : List (String × α)) (k : String) (v : α)
    (h : l.any (fun kv => kv.1 == k) = true) :
    lookupA (l.map (fun kv => if kv.1 == k then (k, v) else kv)) k = some v := by
  induction l with
  | nil => simp at h
  | cons kv t ih =>
    by_cases hk : kv.1 = k
    · simp [lookupA, List.find?, hk]
    · have hk' : (kv.1 == k) = false := by simpa using hk
      have h' : t.any (fun kv => kv.1 == k) = true := by
        simpa [List.any_cons, hk'] using h
      simpa [lookupA, List.find?, hk'] using ih h'

/-- Appending a fresh binding makes the key map to it. -/
lemma lookupA_append_fresh {α : Type} (l : List (String × α)) (k : String) (v : α)
    (h : l.any (fun kv => kv.1 == k) = false) :
    lookupA (l ++ [(k, v)]) k = some v := by
  induction l with
  | nil => simp [lookupA, List.find?]
  | cons kv t ih =>
    have hk : (kv.1 == k) = false := by
      by_cases hkk : kv.1 = k
      · exfalso; simp [List.any_cons, hkk] at h
      · simpa using hkk
    have h' : t.any (fun kv => kv.1 == k) = false := by
      simpa [List.any_cons, hk] using h
    simpa [lookupA, List.find?, hk] using ih h'

/-- Dict assignment makes the key map to the assigned value. -/
lemma lookupA_setA {α : Type} (l : List (String × α)) (k : String) (v : α) :
    lookupA (setA l k v) k = some v := by
  unfold setA
  cases h : l.any (fun kv => kv.1 == k) with
  | true => simpa [h] using lookupA_map_overwrite l k v h
  | false => simpa [h] using lookupA_append_fresh l k v h

/-- The selected row belongs to the list. -/
lemma pickOldest_mem : ∀ {l : List JobRecord} {r : JobRecord},
    pickOldest l = some r → r ∈ l := by
  intro l
  induction l with
  | nil => intro r h; simp [pickOldest] at h
  | cons a t ih =>
    intro r h
    unfold pickOldest at h
    cases hp : pickOldest t with
    | none => rw [hp] at h; simp at h; simp [h]
    | some b =>
      rw [hp] at h
      by_cases hle : a.created_at ≤ b.created_at
      · simp [hle] at h; simp [h]
      · simp [hle] at h
        exact List.mem_cons_of_mem a (ih (h ▸ hp))

/-- The selected row has the minimal creation time of the list. -/
lemma pickOldest_min : ∀ {l : List JobRecord} {r : JobRecord},
    pickOldest l = some r → ∀ x ∈ l, r.created_at ≤ x.created_at := by
  intro l
  induction l with
  | nil => intro r h; simp [pickOldest] at h
  | cons a t ih =>
    intro r h x hx
    unfold pickOldest at h
    cases hp : pickOldest t with
    | none =>
      rw [hp] at h
      simp at h
      have ht : t = [] := by
        cases t with
        | nil => rfl
        | cons c u =>
          exfalso
          unfold pickOldest at hp
          cases hq : pickOldest u with
          | none => rw [hq] at hp; simp at hp
          | some d => rw [hq] at hp; by_cases hcd : c.created_at ≤ d.created_at <;>
              simp [hcd] at hp
      subst ht
      rcases List.mem_singleton.mp hx with hxa
      simp [hxa, ← h]
    | some b =>
      rw [hp] at h
      by_cases hle : a.created_at ≤ b.created_at
      · simp [hle] at h
        rcases List.mem_cons.mp hx with hxa | hxt
        · simp [← h, hxa]
        · have := ih hp x hxt
          have hrb : r = a := by simp [← h]
          rw [hrb]
          exact le_trans hle this
      · simp [hle] at h
        rcases List.mem_cons.mp hx with hxa | hxt
        · have : b.created_at ≤ a.created_at := le_of_not_le hle
          rw [hxa, ← h]
          exact this
        · exact h ▸ ih hp x hxt

/-- Nothing is selected exactly from the empty list. -/
lemma pickOldest_none : ∀ {l : List JobRecord}, pickOldest l = none ↔ l = [] := by
  intro l
  cases l with
  | nil => simp [pickOldest]
  | cons a t =>
    simp only [pickOldest]
    cases hp : pickOldest t with
    | none => simp
    | some b => by_cases hle : a.created_at ≤ b.created_at <;> simp [hle]

/-! ## Claim C1 — terminal finality -/

/-- A completed job row at full progress, for the terminal-finality
counterexample. -/
def jobC1 : JobRecord :=
  ⟨"j1", "analyze", some "p1", "completed", 100, none, none, none,
   some (Json.obj []), 0, some 1, some 2⟩

/-- A store holding only the completed job above. -/
def storeC1 : Store := ⟨[jobC1], []⟩

/-- C1 counterexample: an Update-progress call on a job in status
Completed is not a no-op — it overwrites the terminal job's progress
(100 becomes 50), so terminal finality fails and Update-progress is not
guarded on Running. -/
theorem c1_counterexample :
    jobC1.status = "completed" ∧ jobC1.progress = 100 ∧
    (update_db_progress storeC1 "j1" 50 "s" "m").jobs.map (fun r => r.progress) = [50] ∧
    (50 : Int) ≠ 100 ∧
    (cancel_job storeC1 "j1" 9).1.jobs.map (fun r => r.status) = ["cancelled"] ∧
    "cancelled" ≠ "completed" := by
  refine ⟨rfl, rfl, rfl, by decide, rfl, by decide⟩

/-- C1 amended: an Update-progress call applies to the addressed row
regardless of its status — it overwrites progress, stage and message,
while never changing status, result, error or any timestamp — and a
Cancel call sets status Cancelled and completed-at on the addressed row
regardless of its prior status, terminal or not; rows with other ids are
untouched by either write. -/
theorem c1_amended (s : Store) (id : String) (p : Int) (st m : String) (now : Nat) :
    List.Forall₂ (fun r r' =>
        r'.id = r.id ∧ r'.status = r.status ∧ r'.result = r.result ∧
        r'.error = r.error ∧ r'.created_at = r.created_at ∧
        r'.started_at = r.started_at ∧ r'.completed_at = r.completed_at ∧
        (r.id = id → r'.progress = p ∧ r'.stage = some st ∧ r'.message = some m) ∧
        (r.id ≠ id → r' = r))
      s.jobs (update_db_progress s id p st m).jobs ∧
    List.Forall₂ (fun r r' =>
        r'.id = r.id ∧
        (r.id = id → r'.status = "cancelled" ∧ r'.completed_at = some now) ∧
        (r.id ≠ id → r' = r))
      s.jobs (cancel_job s id now).1.jobs := by
  constructor
  · apply forall2_map_self
    intro x _
    by_cases h : x.id = id <;> simp [h]
  · apply forall2_map_self
    intro x _
    by_cases h : x.id = id <;> simp [h]

/-! ## Claim C2 — startup recovery reset -/

/-- A running job at progress 40 with a set started-at, for the startup
reset counterexample. -/
def jobC2 : JobRecord :=
  ⟨"j2", "ingest", some "p2", "running", 40, none, none, none,
   some (Json.obj []), 0, some 5, none⟩

/-- A store holding only the running job above. -/
def storeC2 : Store := ⟨[jobC2], []⟩

/-- C2 counterexample: the startup reset turns the Running job back to
Pending but neither clears its started-at (still 5) nor resets its
progress (still 40), contradicting the claim's clearing and resetting
parts. -/
theorem c2_counterexample :
    jobC2.status = "running" ∧
    (start_reset_running storeC2).jobs.map (fun r => (r.status, r.started_at, r.progress))
      = [("pending", some 5, 40)] ∧
    some 5 ≠ (none : Option Nat) ∧ (40 : Int) ≠ 0 := by
  refine ⟨rfl, rfl, by simp, by decide⟩

/-- C2 amended: the startup recovery write transitions every job found
in status Running back to Pending, but it writes only the status
column — started-at, progress and every other field keep their prior
values — and jobs in any other status are untouched. -/
theorem c2_amended (s : Store) :
    List.Forall₂ (fun r r' =>
        (r.status = "running" →
          r'.status = "pending" ∧ r'.started_at = r.started_at ∧
          r'.progress = r.progress ∧ r'.id = r.id ∧ r'.result = r.result ∧
          r'.error = r.error ∧ r'.completed_at = r.completed_at) ∧
        (r.status ≠ "running" → r' = r))
      s.jobs (start_reset_running s).jobs := by
  apply forall2_map_self
  intro x _
  by_cases h : x.status = "running" <;> simp [h]

/-! ## Claim C9 — payload and result columns -/

/-- A payload map with one field, for the result-nullity
counterexample. -/
def payloadC9 : Json := Json.obj [("a", Json.num 1)]

/-- The store obtained by creating one job with that payload. -/
def storeC9 : Store := create_job ⟨[], []⟩ "j9" "analyze" (some "p9") payloadC9 0

/-- C9 counterexample: right after creation — long before any
completion — the job's result column already holds the payload map, not
null, contradicting result nullity outside successful completion. -/
theorem c9_counterexample :
    storeC9.jobs.map (fun r => (r.status, r.result)) = [("pending", some payloadC9)] ∧
    some payloadC9 ≠ (none : Option Json) := by
  refine ⟨rfl, by simp⟩

/-- C9 amended: the payload map given at creation is stored in the
result column (the source's observed compromise); progress updates and
the failure write preserve the column, so the payload survives untouched
through Pending, Running and Failed; the success write overwrites the
column with the handler's return value (or the empty map), destroying
the stored payload.  The job's observable result therefore equals the
payload — not null — at all times before a successful completion. -/
theorem c9_amended (s : Store) (id jt : String) (pid : Option String) (pl : Json)
    (p : Int) (st m msg : String) (res : Option Json) (now : Nat) :
    (create_job s id jt pid pl now).jobs.getLast?
      = some ⟨id, jt, pid, "pending", 0, none, none, none, some pl, now, none, none⟩ ∧
    List.Forall₂ (fun r r' => r'.result = r.result)
      s.jobs (update_db_progress s id p st m).jobs ∧
    List.Forall₂ (fun r r' =>
        r'.result = r.result ∧
        (r.id = id → r'.status = "failed" ∧ r'.error = some msg))
      s.jobs (finish_failed s id msg now).jobs ∧
    List.Forall₂ (fun r r' =>
        (r.id = id → r'.status = "completed" ∧
          r'.result = some (res.getD (Json.obj [])) ∧ r'.progress = 100) ∧
        (r.id ≠ id → r' = r))
      s.jobs (finish_completed s id res now).jobs := by
  refine ⟨?_, ?_, ?_, ?_⟩
  · simp [create_job]
  · apply forall2_map_self
    intro x _
    by_cases h : x.id = id <;> simp [h]
  · apply forall2_map_self
    intro x _
    by_cases h : x.id = id <;> simp [h]
  · apply forall2_map_self
    intro x _
    by_cases h : x.id = id <;> simp [h]

/-! ## Claim C10 — cancel always succeeds -/

/-- C10: `cancel_job` returns True for every id — present in the store
or not — so the HTTP cancel endpoint never raises (no 400, no 404); and
every row carrying the id is set to status Cancelled with completed-at
stamped, whatever its prior status; other rows are untouched. -/
theorem c10_cancel (s : Store) (job_id : String) (now : Nat) :
    (cancel_job s job_id now).2 = true ∧
    (cancel_endpoint s job_id now).2 = ApiResult.ok ∧
    List.Forall₂ (fun r r' =>
        (r.id = job_id → r'.status = "cancelled" ∧ r'.completed_at = some now ∧
          r'.id = r.id ∧ r'.progress = r.progress ∧ r'.result = r.result) ∧
        (r.id ≠ job_id → r' = r))
      s.jobs (cancel_job s job_id now).1.jobs := by
  refine ⟨rfl, rfl, ?_⟩
  apply forall2_map_self
  intro x _
  by_cases h : x.id = job_id <;> simp [h]

/-! ## Claim C5 — claim-next selection -/

/-- C5: the worker's claim step returns none exactly when no Pending job
created within the last 24 hours exists; when it returns a job, that job
is a Pending row from the store created within the window, its creation
time is minimal among all such rows (so a Pending job older than the
window is never claimed and the oldest eligible one wins), and the
claimed row — and only it — is transitioned to status Running with
started-at set to the claim time. -/
theorem c5_claim_next (s : Store) (now : Nat) :
    ((claimNext s now).1 = none →
      ∀ r ∈ s.jobs, ¬(r.status = "pending" ∧ now - 86400 < r.created_at)) ∧
    (∀ r, (claimNext s now).1 = some r →
      r ∈ s.jobs ∧ r.status = "pending" ∧ now - 86400 < r.created_at ∧
      (∀ x ∈ s.jobs, x.status = "pending" → now - 86400 < x.created_at →
        r.created_at ≤ x.created_at) ∧
      List.Forall₂ (fun x x' =>
          x'.id = x.id ∧
          (x.id = r.id → x'.status = "running" ∧ x'.started_at = some now ∧
            x'.progress = x.progress ∧ x'.result = x.result ∧
            x'.created_at = x.created_at) ∧
          (x.id ≠ r.id → x' = x))
        s.jobs (claimNext s now).2.jobs) := by
  constructor
  · intro h r hr hcond
    unfold claimNext at h
    cases hp : pickOldest (s.jobs.filter (jobEligible now)) with
    | some b => rw [hp] at h; simp at h
    | none =>
      have hnil := pickOldest_none.mp hp
      have hrmem : r ∈ s.jobs.filter (jobEligible now) := by
        apply List.mem_filter.mpr
        refine ⟨hr, ?_⟩
        simp [jobEligible, hcond.1, hcond.2]
      rw [hnil] at hrmem
      simp at hrmem
  · intro r h
    unfold claimNext at h ⊢
    cases hp : pickOldest (s.jobs.filter (jobEligible now)) with
    | none => rw [hp] at h; simp at h
    | some b =>
      rw [hp] at h
      simp at h
      subst h
      have hmem := pickOldest_mem hp
      have hmem' := List.mem_filter.mp hmem
      have helig : jobEligible now b = true := hmem'.2
      have helig' : b.status = "pending" ∧ now - 86400 < b.created_at := by
        simpa [jobEligible] using helig
      refine ⟨hmem'.1, helig'.1, helig'.2, ?_, ?_⟩
      · intro x hx hst hcr
        apply pickOldest_min hp
        apply List.mem_filter.mpr
        refine ⟨hx, ?_⟩
        simp [jobEligible, hst, hcr]
      · simp only [hp]
        apply forall2_map_self
        intro x _
        by_cases hid : x.id = b.id <;> simp [hid]

/-- A claimable pending job: created at time 5. -/
def jobC5 : JobRecord :=
  ⟨"j5", "ingest", some "p5", "pending", 0, none, none, none,
   some (Json.obj []), 5, none, none⟩

/-- A younger pending job: created at time 30. -/
def jobC5b : JobRecord :=
  ⟨"j5b", "ingest", some "p5", "pending", 0, none, none, none,
   some (Json.obj []), 30, none, none⟩

/-- A store with the two pending jobs above. -/
def storeC5 : Store := ⟨[jobC5b, jobC5], []⟩

/-- C5 witness: at time 100 the claim step of the two-job store picks
the older pending job (created at 5, within the 24-hour window), which
the theorem certifies as pending, in-window and minimal. -/
theorem c5_claim_next_witness :
    jobC5 ∈ storeC5.jobs ∧ jobC5.status = "pending" ∧
    100 - 86400 < jobC5.created_at ∧ jobC5.created_at ≤ jobC5b.created_at := by
  have h := (c5_claim_next storeC5 100).2 jobC5 rfl
  exact ⟨h.1, h.2.1, h.2.2.1,
    h.2.2.2.1 jobC5b (by simp [storeC5]) rfl (by decide)⟩

/-! ## Claim C6 — orphan-project recovery -/

/-- A project in the transient state Analyzing. -/
def projC6 : Project := ⟨"q1", "analyzing", none⟩

/-- A live ingest job (wrong kind for Analyzing) for that project. -/
def jobC6 : JobRecord :=
  ⟨"j6", "ingest", some "q1", "pending", 0, none, none, none,
   some (Json.obj []), 0, none, none⟩

/-- The store pairing them. -/
def storeC6 : Store := ⟨[jobC6], [projC6]⟩

/-- C6 counterexample: the project is Analyzing and no Pending or
Running job of the matching kind (analyze) exists for it — the claim
demands a reset to Ingested — yet because a live job of a different
kind (ingest) exists, the supervisor leaves the project at Analyzing. -/
theorem c6_counterexample :
    storeC6.jobs.any (fun j => j.project_id == some "q1" && j.type' == "analyze" &&
      (j.status == "pending" || j.status == "running")) = false ∧
    projC6.status = "analyzing" ∧
    (recover_stuck_projects storeC6).1.projects.map (fun p => p.status) = ["analyzing"] ∧
    "analyzing" ≠ "ingested" := by
  refine ⟨rfl, rfl, rfl, by decide⟩

/-- C6 amended: a project in a transient lifecycle state is reset to the
predecessor stage (Ingesting/Downloading to Created, Analyzing to
Ingested, Exporting to Analyzed) exactly when no Pending or Running job
of ANY kind — not merely the matching kind — exists for it; a project
with any live job, matching kind or not, is left unchanged, as is every
project in a non-transient state. -/
theorem c6_amended (s : Store) :
    List.Forall₂ (fun p p' =>
        p'.id = p.id ∧ p'.project_meta = p.project_meta ∧
        (isTransient p.status = true → hasLiveJob s p.id = false →
          ((p.status = "ingesting" ∨ p.status = "downloading") → p'.status = "created") ∧
          (p.status = "analyzing" → p'.status = "ingested") ∧
          (p.status = "exporting" → p'.status = "analyzed")) ∧
        (hasLiveJob s p.id = true → p' = p) ∧
        (isTransient p.status = false → p' = p))
      s.projects (recover_stuck_projects s).1.projects := by
  apply forall2_map_self
  intro p _
  by_cases ht : isTransient p.status = true
  · by_cases hl : hasLiveJob s p.id = true
    · simp [ht, hl]
    · have hl' : hasLiveJob s p.id = false := by simpa using hl
      refine ⟨by simp [ht, hl'], by simp [ht, hl'], ?_, ?_, ?_⟩
      · intro _ _
        refine ⟨?_, ?_, ?_⟩
        · rintro (h1 | h1) <;> simp [ht, hl', orphanResetStatus, h1, isTransient]
        · intro h1; simp [ht, hl', orphanResetStatus, h1, isTransient]
        · intro h1; simp [ht, hl', orphanResetStatus, h1, isTransient]
      · intro h1; rw [h1] at hl'; simp at hl'
      · intro h1; rw [h1] at ht; simp at ht
  · have ht' : isTransient p.status = false := by simpa using ht
    simp [ht']

/-! ## Claim C7 — unregistered job kind -/

/-- A registry with only an analyze handler: `render_proxy` has none. -/
def regC7 : Registry := [("analyze", HandlerOutcome.ok none)]

/-- A fresh pending job whose kind has no registered handler. -/
def jobC7 : JobRecord :=
  ⟨"j7", "render_proxy", some "p7", "pending", 0, none, none, none,
   some (Json.obj []), 1000, none, none⟩

/-- The store holding only that job. -/
def storeC7 : Store := ⟨[jobC7], []⟩

/-- C7 evaluated at the failing input: the worker claims the pending
`render_proxy` job — writing status Running and started-at — then,
finding no registered handler, skips execution and sleeps.  The job is
left in status Running with no error forever; it is never finished as
Failed, although the dead `No handler for job type` branch of
`_execute_job` shows that outcome was intended. -/
theorem c7_no_handler_leaves_job_running :
    lookupHandler regC7 "render_proxy" = none ∧
    (workerStep regC7 storeC7 1000).jobs.map (fun r => (r.status, r.error))
      = [("running", none)] ∧
    ("running", (none : Option String)) ≠ ("failed", none) := by
  refine ⟨rfl, rfl, by decide⟩

/-! ## Claim C8 — step-cache resume idempotence -/

/-- C8: for each of the four cached analysis sub-steps, a step file that
parses to a JSON object without an `error` field is a cache hit — the
handler uses exactly the cached blob, reports the step's
completion-boundary progress, and does not invoke the expensive
sub-step — while a blob carrying an `error` field is disqualified, so
the sub-step re-executes from its start progress. -/
theorem c8_step_cache (name : String) (hitP missP : Int)
    (fields : List (String × Json))
    (hmem : (name, hitP, missP) ∈ analysisSteps) :
    (hasField fields "error" = false →
      load_cached_step (FileState.parsed (Json.obj fields)) = some (Json.obj fields) ∧
      runCachedStep hitP missP (FileState.parsed (Json.obj fields))
        = ⟨true, hitP, false⟩) ∧
    (hasField fields "error" = true →
      load_cached_step (FileState.parsed (Json.obj fields)) = none ∧
      runCachedStep hitP missP (FileState.parsed (Json.obj fields))
        = ⟨false, missP, true⟩) := by
  constructor
  · intro h
    constructor
    · simp [load_cached_step, h]
    · simp [runCachedStep, load_cached_step, h]
  · intro h
    constructor
    · simp [load_cached_step, h]
    · simp [runCachedStep, load_cached_step, h]

/-- A transcript blob without an error field. -/
def transcriptBlobC8 : List (String × Json) :=
  [("text", Json.str "hello"), ("segments", Json.obj [])]

/-- C8 witness: the transcript step at a clean cached blob is a hit at
the 35-percent completion boundary and does not re-invoke
transcription. -/
theorem c8_step_cache_witness :
    load_cached_step (FileState.parsed (Json.obj transcriptBlobC8))
      = some (Json.obj transcriptBlobC8) ∧
    runCachedStep 35 5 (FileState.parsed (Json.obj transcriptBlobC8))
      = ⟨true, 35, false⟩ :=
  (c8_step_cache "transcript.json" 35 5 transcriptBlobC8
    (by simp [analysisSteps])).1 rfl

/-! ## Claim C3 — stuck-job detection and recovery -/

/-- The monitor state after one progress report for job `j3` at progress
40, time 0: the sample is seeded and the health record is not stuck. -/
def msC3 : MonitorState := update_job_health ⟨[], []⟩ "j3" "analyze" "running" 40 (some 0) 0

/-- The running analyze job `j3`, still at progress 40. -/
def jobC3 : JobRecord :=
  ⟨"j3", "analyze", some "p3", "running", 40, none, none, none, none, 0, some 0, none⟩

/-- Its project, in status Analyzing. -/
def projC3 : Project := ⟨"p3", "analyzing", none⟩

/-- The store pairing them. -/
def storeC3 : Store := ⟨[jobC3], [projC3]⟩

/-- C3 counterexample: job `j3` is Running and its progress has not
advanced since time 0, so at time 200 the stall exceeds the 180 s
threshold — yet because no further progress report arrived, the stuck
set the tick reads is empty and the tick's recovery pass changes
nothing: the job stays Running and is never marked stuck, failed, or
recovered.  Marking happens only inside a progress report, not in the
supervisor's tick. -/
theorem c3_counterexample :
    lookupA msC3.last_job_progress "j3" = some (40, 0) ∧
    jobC3.status = "running" ∧ jobC3.progress = 40 ∧
    JOB_STUCK_THRESHOLD_SECONDS < 200 - 0 ∧
    get_stuck_jobs msC3 = [] ∧
    recover_stuck_jobs msC3 storeC3 = (msC3, storeC3, 0) ∧
    storeC3.jobs.map (fun r => r.status) = ["running"] := by
  refine ⟨rfl, rfl, rfl, by decide, rfl, rfl, rfl⟩

/-- C3 amended: a Running job is marked stuck only when a NEW progress
report arrives through `update_job_health` repeating the sampled
progress after more than the 180 s threshold — the health record then
carries stuck=true with the observed stall duration; and for a stuck
record in the tick's stuck set whose job row and project exist, the
recovery pass sets that row to Failed with the error naming the
observed stall duration (leaving progress, result and completed-at as
they were), resets the project's status to the predecessor stage of the
job's kind (ingest to Created, analyze to Ingested, export to
Analyzed), and drops both in-memory samples for the job.  A Running job
that stops reporting entirely is never marked stuck by the tick. -/
theorem c3_amended :
    (∀ (ms : MonitorState) (job_id job_type : String) (p : Int)
       (sAt : Option Nat) (now lastT : Nat),
      lookupA ms.last_job_progress job_id = some (p, lastT) →
      JOB_STUCK_THRESHOLD_SECONDS < now - lastT →
      lookupA (update_job_health ms job_id job_type "running" p sAt now).jobs_health job_id
        = some ⟨job_id, job_type, "running", p, sAt, now, true, now - lastT⟩) ∧
    (∀ (ms : MonitorState) (s : Store) (jh : JobHealth) (r : JobRecord)
       (pid : String) (proj : Project),
      get_stuck_jobs ms = [jh] →
      s.jobs.find? (fun x => x.id == jh.job_id) = some r →
      r.project_id = some pid →
      s.projects.find? (fun q => q.id == pid) = some proj →
      (recover_stuck_jobs ms s).2.2 = 1 ∧
      List.Forall₂ (fun x x' =>
          x'.id = x.id ∧
          (x.id = jh.job_id → x'.status = "failed" ∧
            x'.error = some ("Auto-recovered: stuck for " ++
              toString jh.stuck_duration ++ "s") ∧
            x'.progress = x.progress ∧ x'.completed_at = x.completed_at ∧
            x'.result = x.result) ∧
          (x.id ≠ jh.job_id → x' = x))
        s.jobs (recover_stuck_jobs ms s).2.1.jobs ∧
      List.Forall₂ (fun q q' =>
          q'.id = q.id ∧
          (q.id = pid → q'.status = stuckResetStatus jh.job_type q.status) ∧
          (q.id ≠ pid → q' = q))
        s.projects (recover_stuck_jobs ms s).2.1.projects ∧
      lookupA (recover_stuck_jobs ms s).1.jobs_health jh.job_id = none ∧
      lookupA (recover_stuck_jobs ms s).1.last_job_progress jh.job_id = none) := by
  constructor
  · intro ms job_id job_type p sAt now lastT hs hd
    unfold update_job_health
    rw [hs]
    simp [lookupA_setA, decide_eq_true hd]
  · intro ms s jh r pid proj hstuck hfind hpid hproj
    have hred : recover_stuck_jobs ms s = recoverOne (ms, s, 0) jh := by
      unfold recover_stuck_jobs
      rw [hstuck]
      rfl
    rw [hred]
    unfold recoverOne
    dsimp only
    rw [hfind]
    simp only [hpid, hproj, Option.isSome_some, if_true]
    refine ⟨by trivial, ?_, ?_, lookupA_delA _ _, lookupA_delA _ _⟩
    · apply forall2_map_self
      intro x _
      by_cases hid : x.id = jh.job_id <;> simp [hid]
    · apply forall2_map_self
      intro q _
      by_cases hid : q.id = pid <;> simp [hid]

/-- The monitor state for the C3 witness marking part: a sample for
`w3` at progress 40, time 0. -/
def msC3w : MonitorState := ⟨[], [("w3", 40, 0)]⟩

/-- A stuck health record for job `w4`, stalled 220 s. -/
def jhC3w : JobHealth := ⟨"w4", "analyze", "running", 40, some 0, 300, true, 220⟩

/-- A monitor state whose stuck set is exactly that record. -/
def msC3w2 : MonitorState := ⟨[("w4", jhC3w)], [("w4", 40, 0)]⟩

/-- The running analyze job `w4`. -/
def jobC3w : JobRecord :=
  ⟨"w4", "analyze", some "pw", "running", 40, none, none, none, none, 0, some 0, none⟩

/-- Its project in Analyzing. -/
def projC3w : Project := ⟨"pw", "analyzing", none⟩

/-- The store for the recovery part of the witness. -/
def storeC3w : Store := ⟨[jobC3w], [projC3w]⟩

/-- C3 amended witness: a repeated progress report 200 s after the
sample marks `w3` stuck with duration 200; and one recovery pass over
the single stuck record recovers exactly one job. -/
theorem c3_amended_witness :
    lookupA (update_job_health msC3w "w3" "analyze" "running" 40 (some 0) 200).jobs_health "w3"
      = some ⟨"w3", "analyze", "running", 40, some 0, 200, true, 200⟩ ∧
    (recover_stuck_jobs msC3w2 storeC3w).2.2 = 1 :=
  ⟨c3_amended.1 msC3w "w3" "analyze" 40 (some 0) 200 0 rfl (by decide),
   (c3_amended.2 msC3w2 storeC3w jhC3w jobC3w "pw" projC3w rfl rfl rfl rfl).1⟩

/-! ## Claim C4 — failed-job auto-retry -/

/-- A job created with the retry payload carries retry count one above
the failed original's. -/
lemma retryCountOf_retryPayload (jt : String) (n : Int) :
    retryCountOf (some (retryPayload jt n)) = some (n + 1) := by
  unfold retryPayload retryCountOf findField
  by_cases h : jt == "ingest" <;> simp [h, List.find?]

/-- One restart iteration either leaves the job table unchanged or
appends exactly one job whose retry count is the below-maximum count of
the processed failed job plus one. -/
lemma restartOne_jobs (now : Nat) (acc : Store × Nat × Nat) (r : JobRecord) :
    (restartOne now acc r).1.jobs = acc.1.jobs ∨
    ∃ n : Int, n < AUTO_RETRY_MAX ∧
      ∃ j, (restartOne now acc r).1.jobs = acc.1.jobs ++ [j] ∧
        retryCountOf j.result = some (n + 1) := by
  obtain ⟨s, cnt, idx⟩ := acc
  unfold restartOne
  dsimp only
  cases hrc : retryCountOf r.result with
  | none => left; rfl
  | some n =>
    by_cases hn : AUTO_RETRY_MAX ≤ n
    · simp [hn]
    · simp only [if_neg hn]
      cases hp : r.project_id.bind (fun pid => s.projects.find? (fun p => p.id == pid)) with
      | none => left; rfl
      | some p =>
        by_cases hrep : hasReplacement s r p.id = true
        · simp [hrep]
        · simp only [Bool.not_eq_true] at hrep
          simp only [hrep, Bool.false_eq_true, if_false]
          by_cases ht1 : r.type' == "ingest"
          · right
            refine ⟨n, lt_of_not_le hn, ?_⟩
            simp only [ht1, if_true]
            exact ⟨_, rfl, retryCountOf_retryPayload "ingest" n⟩
          · simp only [Bool.not_eq_true] at ht1
            simp only [ht1, Bool.false_eq_true, if_false]
            by_cases ht2 : r.type' == "analyze"
            · right
              refine ⟨n, lt_of_not_le hn, ?_⟩
              simp only [ht2, if_true]
              exact ⟨_, rfl, retryCountOf_retryPayload "analyze" n⟩
            · simp only [Bool.not_eq_true] at ht2
              simp only [ht2, Bool.false_eq_true, if_false]
              exact Or.inl trivial

/-- Fold invariant for the restart pass: every job in the resulting
table was already in the reference table or carries a retry count that
is a below-maximum count plus one. -/
lemma restart_fold_jobs (now : Nat) :
    ∀ (batch : List JobRecord) (acc : Store × Nat × Nat) (s0 : Store),
      (∀ r' ∈ acc.1.jobs, r' ∈ s0.jobs ∨
        ∃ n : Int, n < AUTO_RETRY_MAX ∧ retryCountOf r'.result = some (n + 1)) →
      ∀ r' ∈ (batch.foldl (restartOne now) acc).1.jobs,
        r' ∈ s0.jobs ∨
        ∃ n : Int, n < AUTO_RETRY_MAX ∧ retryCountOf r'.result = some (n + 1) := by
  intro batch
  induction batch with
  | nil => intro acc s0 h; simpa using h
  | cons r t ih =>
    intro acc s0 h
    simp only [List.foldl_cons]
    apply ih
    intro r' hr'
    rcases restartOne_jobs now acc r with heq | ⟨n, hn, j, heq, hcnt⟩
    · rw [heq] at hr'
      exact h r' hr'
    · rw [heq] at hr'
      rcases List.mem_append.mp hr' with h1 | h2
      · exact h r' h1
      · right
        have : r' = j := List.mem_singleton.mp h2
        exact ⟨n, hn, this ▸ hcnt⟩

/-- A project whose export job failed, for the auto-retry
counterexample. -/
def projC4 : Project := ⟨"p4", "analyzed", none⟩

/-- A recently failed export job with retry count 0. -/
def jobC4 : JobRecord :=
  ⟨"j4", "export", some "p4", "failed", 0, none, none, some "boom",
   some (Json.obj []), 0, some 10, some 100⟩

/-- The store pairing them. -/
def storeC4 : Store := ⟨[jobC4], [projC4]⟩

/-- C4 counterexample: the export job entered Failed 300 s ago (within
10 minutes), its retry count 0 is below the maximum, its project exists
and no replacement job exists — the claim demands a successor identical
to the original with retry count 1 — yet the restart pass creates no
job at all (the job table is unchanged), because only ingest and
analyze kinds have a restart branch; the pass still counts the job as
restarted. -/
theorem c4_counterexample :
    failedRecently 400 jobC4 = true ∧
    retryCountOf jobC4.result = some 0 ∧
    hasReplacement storeC4 jobC4 "p4" = false ∧
    (auto_restart_failed_jobs storeC4 400).1.jobs = storeC4.jobs ∧
    (auto_restart_failed_jobs storeC4 400).2 = 1 := by
  refine ⟨rfl, rfl, rfl, rfl, rfl⟩

/-- C4 amended: every job the restart pass adds to the table carries a
retry count equal to a below-maximum count plus one — hence never more
than the maximum 3, so an always-failing job is retried at most 3 times
and a fourth attempt is never scheduled; and when the recent-failure
batch is a single analyze job with retry count below the maximum, an
existing project and no replacement, the pass creates exactly one
successor of the same kind and project with retry count incremented —
carrying the fixed retry payload rather than a copy of the original's —
sets the project to Analyzing, and reports one restart.  Failed jobs of
kinds other than ingest and analyze never get a successor. -/
theorem c4_amended :
    (∀ (s : Store) (now : Nat) (r' : JobRecord),
      r' ∈ (auto_restart_failed_jobs s now).1.jobs →
      r' ∈ s.jobs ∨ ∃ n : Int, n < AUTO_RETRY_MAX ∧
        retryCountOf r'.result = some (n + 1) ∧ n + 1 ≤ AUTO_RETRY_MAX) ∧
    (∀ (s : Store) (now : Nat) (r : JobRecord) (n : Int)
       (pid : String) (proj : Project),
      s.jobs.filter (failedRecently now) = [r] →
      r.type' = "analyze" →
      retryCountOf r.result = some n →
      n < AUTO_RETRY_MAX →
      r.project_id = some pid →
      s.projects.find? (fun q => q.id == pid) = some proj →
      hasReplacement s r proj.id = false →
      (auto_restart_failed_jobs s now).1.jobs
        = s.jobs ++ [⟨"retry-0", "analyze", some proj.id, "pending", 0, none, none,
            none, some (Json.obj [("_retry_count", Json.num (n + 1))]), now,
            none, none⟩] ∧
      List.Forall₂ (fun q q' =>
          q'.id = q.id ∧
          (q.id = proj.id → q'.status = "analyzing") ∧
          (q.id ≠ proj.id → q' = q))
        s.projects (auto_restart_failed_jobs s now).1.projects ∧
      (auto_restart_failed_jobs s now).2 = 1) := by
  constructor
  · intro s now r' hr'
    have hbase : ∀ x ∈ (s, 0, 0).1.jobs, x ∈ s.jobs ∨
        ∃ n : Int, n < AUTO_RETRY_MAX ∧ retryCountOf x.result = some (n + 1) :=
      fun x hx => Or.inl hx
    have h := restart_fold_jobs now
      ((sortDescByCompleted (s.jobs.filter (failedRecently now))).take 10)
      (s, 0, 0) s hbase r' hr'
    rcases h with h1 | ⟨n, hn, hc⟩
    · exact Or.inl h1
    · exact Or.inr ⟨n, hn, hc, by omega⟩
  · intro s now r n pid proj hfilter htype hrc hn hpid hproj hrep
    unfold auto_restart_failed_jobs
    rw [hfilter]
    have hsort : (sortDescByCompleted [r]).take 10 = [r] := rfl
    rw [hsort]
    simp only [List.foldl_cons, List.foldl_nil]
    unfold restartOne
    dsimp only
    rw [hrc]
    dsimp only
    rw [if_neg (not_le.mpr hn)]
    rw [hpid]
    simp only [Option.some_bind]
    rw [hproj]
    dsimp only
    simp only [hrep, Bool.false_eq_true, if_false]
    rw [htype]
    have hti : (("analyze" : String) == "ingest") = false := rfl
    have hta : (("analyze" : String) == "analyze") = true := rfl
    simp only [hti, Bool.false_eq_true, if_false, hta, if_true]
    refine ⟨?_, ?_, by trivial⟩
    · show (create_job s "retry-0" "analyze" (some proj.id)
        (retryPayload "analyze" n) now).jobs = _
      simp [create_job, retryPayload]
    · show List.Forall₂ _ s.projects
        ((setProjectStatus (create_job s "retry-0" "analyze" (some proj.id)
          (retryPayload "analyze" n) now) proj.id "analyzing").projects)
      apply forall2_map_self
      intro q _
      by_cases hid : q.id = proj.id <;> simp [hid]

/-- A recently failed analyze job at retry count 1, for the C4
witness. -/
def jobC4w : JobRecord :=
  ⟨"w9", "analyze", some "pw9", "failed", 20, none, none, some "boom",
   some (Json.obj [("_retry_count", Json.num 1)]), 0, some 10, some 100⟩

/-- Its project, rolled back to Ingested. -/
def projC4w : Project := ⟨"pw9", "ingested", none⟩

/-- The store pairing them. -/
def storeC4w : Store := ⟨[jobC4w], [projC4w]⟩

/-- The successor job the restart pass creates for that store. -/
def retryJobC4w : JobRecord :=
  ⟨"retry-0", "analyze", some "pw9", "pending", 0, none, none, none,
   some (retryPayload "analyze" 1), 400, none, none⟩

/-- C4 amended witness: the restart pass over the single failed analyze
job at retry count 1 reports one restart, and the job it appends is
certified by the cap part to carry a below-maximum count plus one. -/
theorem c4_amended_witness :
    (auto_restart_failed_jobs storeC4w 400).2 = 1 ∧
    (retryJobC4w ∈ storeC4w.jobs ∨ ∃ n : Int, n < AUTO_RETRY_MAX ∧
      retryCountOf retryJobC4w.result = some (n + 1) ∧ n + 1 ≤ AUTO_RETRY_MAX) := by
  constructor
  · exact (c4_amended.2 storeC4w 400 jobC4w 1 "pw9" projC4w rfl rfl rfl
      (by decide) rfl rfl rfl).2.2
  · apply c4_amended.1 storeC4w 400 retryJobC4w
    have hjobs : (auto_restart_failed_jobs storeC4w 400).1.jobs
        = storeC4w.jobs ++ [retryJobC4w] := rfl
    rw [hjobs]
    exact List.mem_append_right _ (List.mem_singleton_self _)
